import Mathlib

/-!
Shallow embedding of `drivers/md/dm-sysfs.c` (device-mapper sysfs attribute
dispatch and I/O latency histograms) and verification of its specification.

The file `dm-sysfs.c` is the authority for all dispatch and formatting logic.
The collaborating declarations it uses (`struct mapped_device`, the
`DM_LATENCY_STATS_*` constants from `dm.h`, `dm_get_from_kobject`, `dm_put`,
`dm_suspended_md`, `dm_copy_name_and_uuid`) live outside the available
sources; the state they expose is modelled from the spec, as noted on each
such definition.
-/

namespace DmSysfs

/-- The value C prints for `%d` applied to a 32-bit `atomic_t` counter whose
abstract (unbounded) increment count is `v`: the stored bits are `v % 2^32`
and they are read back as a signed twos-complement 32-bit integer. -/
def toSigned32 (v : Nat) : Int :=
  if v % 2 ^ 32 < 2 ^ 31 then ((v % 2 ^ 32 : Nat) : Int)
  else ((v % 2 ^ 32 : Nat) : Int) - 2 ^ 32

/-- Modelled from the spec: the per-scale histogram constants
`DM_LATENCY_STATS_{US,MS,S}_NR` and `DM_LATENCY_STATS_{US,MS,S}_GRAINSIZE`
are defined in `dm.h`, which is not among the available sources; the spec
treats them as fixed parameters `N_scale` and `GRAINSIZE_scale`. -/
structure LatencyConfig where
  us_nr : Nat
  us_grain : Int
  ms_nr : Nat
  ms_grain : Int
  s_nr : Nat
  s_grain : Int

/-- Modelled from the spec: the fields of `struct mapped_device` (declared in
`dm.h`/`dm.c`, not among the available sources) that the attribute callbacks
read or write. `name_uuid` is `none` when `dm_copy_name_and_uuid` fails;
each histogram is a map from bucket index to the abstract increment count
of the atomic counter of that bucket. -/
structure mapped_device where
  name_uuid : Option (String × String)
  suspended : Bool
  latency_stats_us : Nat → Nat
  latency_stats_ms : Nat → Nat
  latency_stats_s : Nat → Nat

/-- Error values returned by the dispatchers, mirroring the C error codes:
`-EIO` (descriptor lacks the requested callback, or the retrieval logic of
a callback failed) and `-EINVAL` (handle resolution failed). -/
inductive DmError where
  | EIOErr
  | EINVAL
deriving DecidableEq, Repr

/-- One formatted histogram line, as produced by
`sprintf(buf + ptr, "%d-%d(unit):%d\n", slot_base, slot_base + GRAINSIZE - 1,
atomic_read(...))`. -/
def latencyLine (slot_base grain : Int) (unit : String) (count : Int) : String :=
  toString slot_base ++ "-" ++ toString (slot_base + grain - 1) ++
    "(" ++ unit ++ "):" ++ toString count ++ "\n"

/-- The bucket loop shared by the three `dm_attr_io_latency_*_show`
functions. The first `Nat` argument is the number of remaining iterations
(`NR - i`), then the current index `i`, the current `slot_base`, and the
buffer written so far. The `if (nr < 0) break` guard of the C loop is vacuous in
this model: `sprintf` into the provided page buffer cannot fail. -/
def latencyShowLoop (grain : Int) (unit : String) (stats : Nat → Nat) :
    Nat → Nat → Int → String → String
  | 0, _, _, buf => buf
  | k + 1, i, slot_base, buf =>
      latencyShowLoop grain unit stats k (i + 1) (slot_base + grain)
        (buf ++ latencyLine slot_base grain unit (toSigned32 (stats i)))

/-- The full formatted output of a latency show callback: run the bucket
loop from `i = 0`, `slot_base = 0` on an empty buffer. -/
def latencyShow (grain : Int) (nr : Nat) (unit : String) (stats : Nat → Nat) : String :=
  latencyShowLoop grain unit stats nr 0 0 ""

/-- `dm_attr_name_show`: copy the device name; on failure return `-EIO`,
otherwise the name with a trailing newline. -/
def dm_attr_name_show (md : mapped_device) : Except DmError String :=
  match md.name_uuid with
  | none => .error .EIOErr
  | some p => .ok (p.1 ++ "\n")

/-- `dm_attr_uuid_show`: copy the device uuid; on failure return `-EIO`,
otherwise the uuid with a trailing newline. -/
def dm_attr_uuid_show (md : mapped_device) : Except DmError String :=
  match md.name_uuid with
  | none => .error .EIOErr
  | some p => .ok (p.2 ++ "\n")

/-- `dm_attr_suspended_show`: `sprintf(buf, "%d\n", dm_suspended_md(md))`;
always succeeds. -/
def dm_attr_suspended_show (md : mapped_device) : Except DmError String :=
  .ok (toString (if md.suspended then (1 : Int) else 0) ++ "\n")

/-- `dm_attr_io_latency_us_show`: format the microsecond-scale histogram. -/
def dm_attr_io_latency_us_show (cfg : LatencyConfig) (md : mapped_device) :
    Except DmError String :=
  .ok (latencyShow cfg.us_grain cfg.us_nr "us" md.latency_stats_us)

/-- `dm_attr_io_latency_ms_show`: format the millisecond-scale histogram. -/
def dm_attr_io_latency_ms_show (cfg : LatencyConfig) (md : mapped_device) :
    Except DmError String :=
  .ok (latencyShow cfg.ms_grain cfg.ms_nr "ms" md.latency_stats_ms)

/-- `dm_attr_io_latency_s_show`: format the second-scale histogram. -/
def dm_attr_io_latency_s_show (cfg : LatencyConfig) (md : mapped_device) :
    Except DmError String :=
  .ok (latencyShow cfg.s_grain cfg.s_nr "s" md.latency_stats_s)

/-- The device state after `dm_attr_io_latency_reset_store`: every bucket
index below the configured `NR` of each scale is set to zero (the C loops
run `for (i = 0; i < DM_LATENCY_STATS_*_NR; i++) atomic_set(..., 0)`). -/
def resetMd (cfg : LatencyConfig) (md : mapped_device) : mapped_device :=
  { md with
      latency_stats_us := fun i => if i < cfg.us_nr then 0 else md.latency_stats_us i,
      latency_stats_ms := fun i => if i < cfg.ms_nr then 0 else md.latency_stats_ms i,
      latency_stats_s := fun i => if i < cfg.s_nr then 0 else md.latency_stats_s i }

/-- `dm_attr_io_latency_reset_store`: zero all buckets of all three
histograms, ignore the payload, and report the full length consumed. -/
def dm_attr_io_latency_reset_store (cfg : LatencyConfig) (md : mapped_device)
    (_buf : String) (len : Nat) : Except DmError (mapped_device × Nat) :=
  .ok (resetMd cfg md, len)

/-- `struct dm_sysfs_attr`: an attribute name with optional show and store
callbacks (`NULL` pointers become `none`). A store callback returns the
updated device together with the consumed length. -/
structure dm_sysfs_attr where
  name : String
  show? : Option (mapped_device → Except DmError String)
  store? : Option (mapped_device → String → Nat → Except DmError (mapped_device × Nat))

/-- `DM_ATTR_RO(name)`. -/
def dm_attr_name : dm_sysfs_attr :=
  ⟨"name", some dm_attr_name_show, none⟩

/-- `DM_ATTR_RO(uuid)`. -/
def dm_attr_uuid : dm_sysfs_attr :=
  ⟨"uuid", some dm_attr_uuid_show, none⟩

/-- `DM_ATTR_RO(suspended)`. -/
def dm_attr_suspended : dm_sysfs_attr :=
  ⟨"suspended", some dm_attr_suspended_show, none⟩

/-- `DM_ATTR_RO(io_latency_us)`. -/
def dm_attr_io_latency_us (cfg : LatencyConfig) : dm_sysfs_attr :=
  ⟨"io_latency_us", some (dm_attr_io_latency_us_show cfg), none⟩

/-- `DM_ATTR_RO(io_latency_ms)`. -/
def dm_attr_io_latency_ms (cfg : LatencyConfig) : dm_sysfs_attr :=
  ⟨"io_latency_ms", some (dm_attr_io_latency_ms_show cfg), none⟩

/-- `DM_ATTR_RO(io_latency_s)`. -/
def dm_attr_io_latency_s (cfg : LatencyConfig) : dm_sysfs_attr :=
  ⟨"io_latency_s", some (dm_attr_io_latency_s_show cfg), none⟩

/-- `DM_ATTR_RW(io_latency_reset)`: store-only (`show` is `NULL`). -/
def dm_attr_io_latency_reset (cfg : LatencyConfig) : dm_sysfs_attr :=
  ⟨"io_latency_reset", none, some (dm_attr_io_latency_reset_store cfg)⟩

/-- The `dm_attrs` table, in source order. -/
def dm_attrs (cfg : LatencyConfig) : List dm_sysfs_attr :=
  [dm_attr_name, dm_attr_uuid, dm_attr_suspended,
   dm_attr_io_latency_us cfg, dm_attr_io_latency_ms cfg,
   dm_attr_io_latency_s cfg, dm_attr_io_latency_reset cfg]

/-- Events on the object registry observed during one dispatch call:
`get` is a successful `dm_get_from_kobject`, `put` is `dm_put`, and
`invoke` marks the invocation of the callback held by the descriptor. -/
inductive RegEvent where
  | get
  | put
  | invoke
deriving DecidableEq, Repr

/-- `dm_attr_show`, the generic read dispatcher: if the descriptor has no
show callback return `-EIO`; resolve the kobject to a device (`resolve` is
the outcome of `dm_get_from_kobject`, `none` when the object is gone) and
on failure return `-EINVAL`; otherwise invoke the callback and release the
reference. The second component is the trace of registry events. -/
def dm_attr_show (attr : dm_sysfs_attr) (resolve : Option mapped_device) :
    Except DmError String × List RegEvent :=
  match attr.show? with
  | none => (.error .EIOErr, [])
  | some f =>
    match resolve with
    | none => (.error .EINVAL, [])
    | some md => (f md, [.get, .invoke, .put])

/-- `dm_attr_store`, the generic write dispatcher: mirror of `dm_attr_show`
for the store callback, also carrying the page payload and its length. -/
def dm_attr_store (attr : dm_sysfs_attr) (resolve : Option mapped_device)
    (page : String) (len : Nat) :
    Except DmError (mapped_device × Nat) × List RegEvent :=
  match attr.store? with
  | none => (.error .EIOErr, [])
  | some f =>
    match resolve with
    | none => (.error .EINVAL, [])
    | some md => (f md page len, [.get, .invoke, .put])

/-- Concatenation of a list of output lines into the buffer contents. -/
def joinLines : List String → String
  | [] => ""
  | a :: l => a ++ joinLines l

/-- Lower bound of bucket `i`, as the spec states it: `i * GRAINSIZE`. -/
def bucketLo (grain : Int) (i : Nat) : Int := (i : Int) * grain

/-- Upper bound of bucket `i`, as the spec states it: `lo + GRAINSIZE - 1`. -/
def bucketHi (grain : Int) (i : Nat) : Int := bucketLo grain i + grain - 1

/-- The list of lines the spec says a latency read produces: one line per
bucket index `i < nr`, in ascending index order, with bounds computed from
the index and the grain size. -/
def latencyLines (grain : Int) (nr : Nat) (unit : String) (stats : Nat → Nat) :
    List String :=
  (List.range nr).map fun i => latencyLine (bucketLo grain i) grain unit (toSigned32 (stats i))

/-- Modelled from the spec: the external observer increments a single bucket;
`incBucket stats i k` adds `k` to bucket `i` (the increments themselves are
performed outside `dm-sysfs.c`). -/
def incBucket (stats : Nat → Nat) (i k : Nat) : Nat → Nat :=
  fun j => if j = i then stats j + k else stats j

/-- A registry trace is paired when it is either empty (no reference was
acquired) or exactly one acquire, one callback invocation and one release
in that order. -/
def pairedTrace (ev : List RegEvent) : Prop :=
  ev = [] ∨ ev = [.get, .invoke, .put]

/-- The property the spec states for a latency read on one scale: the output
is exactly the concatenation of `nr` lines, line `i` formats bucket `i` with
`lo = i * GRAINSIZE` and `hi = lo + GRAINSIZE - 1` and the counter of bucket
`i`, and consecutive buckets are strictly ascending with no gap and no
overlap. -/
def LatencyReadSpec (grain : Int) (nr : Nat) (unit : String) (stats : Nat → Nat)
    (out : Except DmError String) : Prop :=
  ∃ lines : List String,
    out = .ok (joinLines lines) ∧
    lines.length = nr ∧
    (∀ i, i < nr → lines[i]? =
      some (latencyLine (bucketLo grain i) grain unit (toSigned32 (stats i)))) ∧
    (∀ i, bucketLo grain i ≤ bucketHi grain i) ∧
    (∀ i, bucketHi grain i + 1 = bucketLo grain (i + 1)) ∧
    (∀ i, bucketLo grain i < bucketLo grain (i + 1))

/-- A concrete configuration for witnesses, using the values the spec fixes
for the microsecond scale (`GRAINSIZE_us = 100`, `N_us = 5`); field order is
`us_nr`, `us_grain`, `ms_nr`, `ms_grain`, `s_nr`, `s_grain`. -/
def cfg0 : LatencyConfig := ⟨5, 100, 5, 100, 5, 1⟩

/-- A concrete device whose histograms were never incremented. -/
def md0 : mapped_device :=
  ⟨some ("dm-0", "uuid-0"), false, fun _ => 0, fun _ => 0, fun _ => 0⟩

/-- `md0` after the external observer incremented microsecond bucket 1 by 7. -/
def mdInc : mapped_device :=
  { md0 with latency_stats_us := incBucket (fun _ => 0) 1 7 }

/-- `md0` after the external observer incremented microsecond bucket 0 by
`2 ^ 31`, overflowing the positive range of the 32-bit counter. -/
def mdBig : mapped_device :=
  { md0 with latency_stats_us := incBucket (fun _ => 0) 0 (2 ^ 31) }

/-! Helper lemmas shared by the claim theorems. -/

theorem str_assoc (a b c : String) : a ++ b ++ c = a ++ (b ++ c) := by
  apply String.ext
  simp

theorem str_append_empty (a : String) : a ++ "" = a := by
  apply String.ext
  simp

/-- Unrolling the C bucket loop: starting at index `i` with
`slot_base = i * grain`, the loop appends one formatted line per remaining
bucket. -/
theorem latencyShowLoop_spec (grain : Int) (unit : String) (stats : Nat → Nat) :
    ∀ (k i : Nat) (buf : String),
      latencyShowLoop grain unit stats k i ((i : Int) * grain) buf =
        buf ++ joinLines ((List.range k).map fun j =>
          latencyLine (((i + j : Nat) : Int) * grain) grain unit
            (toSigned32 (stats (i + j)))) := by
  intro k
  induction k with
  | zero => intro i buf; simp [latencyShowLoop, joinLines, str_append_empty]
  | succ k ih =>
    intro i buf
    rw [latencyShowLoop]
    have hslot : ((i : Int) * grain + grain) = (((i + 1 : Nat) : Int) * grain) := by
      push_cast; ring
    rw [hslot, ih (i + 1)]
    rw [List.range_succ_eq_map]
    simp only [List.map_cons, List.map_map, joinLines]
    rw [str_assoc]
    congr 1
    simp only [Nat.add_zero]
    congr 1
    apply congrArg
    refine List.map_congr_left fun j _ => ?_
    simp only [Function.comp_apply, Nat.succ_eq_add_one]
    have h2 : i + 1 + j = i + (j + 1) := by omega
    rw [h2]

/-- The full loop output is the concatenation of the per-bucket lines. -/
theorem latencyShow_eq (grain : Int) (nr : Nat) (unit : String) (stats : Nat → Nat) :
    latencyShow grain nr unit stats = joinLines (latencyLines grain nr unit stats) := by
  have h := latencyShowLoop_spec grain unit stats nr 0 ""
  simp only [Nat.cast_zero, Int.zero_mul, latencyShow] at h ⊢
  rw [h]
  apply String.ext
  simp [latencyLines, bucketLo]

theorem latencyLines_length (g : Int) (nr : Nat) (u : String) (f : Nat → Nat) :
    (latencyLines g nr u f).length = nr := by
  simp [latencyLines]

theorem latencyLines_get? (g : Int) (nr : Nat) (u : String) (f : Nat → Nat)
    (i : Nat) (h : i < nr) :
    (latencyLines g nr u f)[i]? =
      some (latencyLine (bucketLo g i) g u (toSigned32 (f i))) := by
  simp [latencyLines, List.getElem?_map, List.getElem?_range h]

theorem bucket_facts (g : Int) (hg : 1 ≤ g) (i : Nat) :
    bucketLo g i ≤ bucketHi g i ∧ bucketHi g i + 1 = bucketLo g (i + 1) ∧
      bucketLo g i < bucketLo g (i + 1) := by
  simp only [bucketHi, bucketLo]
  push_cast
  refine ⟨by linarith, by ring, ?_⟩
  have hmul : ((i : Int) + 1) * g = (i : Int) * g + g := by ring
  rw [hmul]
  linarith

theorem toSigned32_small (k : Nat) (hk : k < 2 ^ 31) : toSigned32 k = (k : Int) := by
  unfold toSigned32
  split <;> push_cast <;> omega

theorem toSigned32_zero : toSigned32 0 = 0 := by decide

/-- `toSigned32 v` is the unique representative of `v` modulo `2 ^ 32` in the
signed 32-bit range, and it is negative whenever the stored residue is at
least `2 ^ 31`. -/
theorem toSigned32_props (v : Nat) :
    (2 ^ 31 ≤ v % 2 ^ 32 → toSigned32 v < 0) ∧
    -(2 ^ 31) ≤ toSigned32 v ∧ toSigned32 v < 2 ^ 31 ∧
      toSigned32 v % (2 ^ 32 : Int) = (v : Int) % (2 ^ 32 : Int) := by
  unfold toSigned32
  split <;> push_cast <;> omega

/-- Every latency read on one scale satisfies the line structure the spec
demands, whenever the grain size is positive. -/
theorem latencyReadSpec_holds (g : Int) (hg : 1 ≤ g) (nr : Nat) (u : String)
    (f : Nat → Nat) :
    LatencyReadSpec g nr u f (.ok (latencyShow g nr u f)) := by
  refine ⟨latencyLines g nr u f, ?_, latencyLines_length g nr u f, ?_, ?_, ?_, ?_⟩
  · rw [latencyShow_eq]
  · intro i h
    exact latencyLines_get? g nr u f i h
  · intro i
    exact (bucket_facts g hg i).1
  · intro i
    exact (bucket_facts g hg i).2.1
  · intro i
    exact (bucket_facts g hg i).2.2

/-- Resetting an already reset device changes nothing. -/
theorem resetMd_idem (cfg : LatencyConfig) (md : mapped_device) :
    resetMd cfg (resetMd cfg md) = resetMd cfg md := by
  cases md
  simp only [resetMd]
  congr 1 <;> funext i <;> by_cases h : i < cfg.us_nr <;>
    by_cases h2 : i < cfg.ms_nr <;> by_cases h3 : i < cfg.s_nr <;> simp [h, h2, h3]

/-- Reading one scale after its buckets below `nr` were zeroed yields lines
whose count field is `0`. -/
theorem latencyShow_reset (g : Int) (nr : Nat) (u : String) (f : Nat → Nat) :
    latencyShow g nr u (fun i => if i < nr then 0 else f i) =
      joinLines ((List.range nr).map fun i => latencyLine (bucketLo g i) g u 0) := by
  rw [latencyShow_eq]
  unfold latencyLines
  apply congrArg
  refine List.map_congr_left fun i hi => ?_
  rw [List.mem_range] at hi
  simp [hi, toSigned32_zero]

/-- Reading one scale whose only nonzero bucket is `i` with value `k < 2^31`
yields count `k` at bucket `i` and count `0` everywhere else. -/
theorem latencyShow_incBucket (g : Int) (nr : Nat) (u : String) (i k : Nat)
    (hk : k < 2 ^ 31) :
    latencyShow g nr u (incBucket (fun _ => 0) i k) =
      joinLines ((List.range nr).map fun j =>
        latencyLine (bucketLo g j) g u (if j = i then (k : Int) else 0)) := by
  rw [latencyShow_eq]
  unfold latencyLines
  apply congrArg
  refine List.map_congr_left fun j _ => ?_
  unfold incBucket
  by_cases h : j = i <;> simp [h, toSigned32_zero, toSigned32_small k hk]

/-! The claims. -/

/-- C1: for each of the three latency attributes, a read on a resolved object
returns exactly `N_scale` lines, one per bucket in strictly ascending
bucket-index order, where line `i` is `"<lo>-<hi>(<unit>):<count>\n"` with
`lo = i * GRAINSIZE_scale`, `hi = lo + GRAINSIZE_scale - 1` and `count` the
value of the counter of bucket `i`, with no gaps or overlaps between
consecutive buckets. -/
theorem c1_latency_read_buckets (cfg : LatencyConfig) (md : mapped_device)
    (hus : 1 ≤ cfg.us_grain) (hms : 1 ≤ cfg.ms_grain) (hs : 1 ≤ cfg.s_grain) :
    LatencyReadSpec cfg.us_grain cfg.us_nr "us" md.latency_stats_us
        (dm_attr_io_latency_us_show cfg md) ∧
    LatencyReadSpec cfg.ms_grain cfg.ms_nr "ms" md.latency_stats_ms
        (dm_attr_io_latency_ms_show cfg md) ∧
    LatencyReadSpec cfg.s_grain cfg.s_nr "s" md.latency_stats_s
        (dm_attr_io_latency_s_show cfg md) :=
  ⟨latencyReadSpec_holds cfg.us_grain hus cfg.us_nr "us" md.latency_stats_us,
   latencyReadSpec_holds cfg.ms_grain hms cfg.ms_nr "ms" md.latency_stats_ms,
   latencyReadSpec_holds cfg.s_grain hs cfg.s_nr "s" md.latency_stats_s⟩

/-- Witness for C1 at the concrete configuration `cfg0` and device `md0`. -/
theorem c1_latency_read_buckets_witness :
    LatencyReadSpec cfg0.us_grain cfg0.us_nr "us" md0.latency_stats_us
        (dm_attr_io_latency_us_show cfg0 md0) ∧
    LatencyReadSpec cfg0.ms_grain cfg0.ms_nr "ms" md0.latency_stats_ms
        (dm_attr_io_latency_ms_show cfg0 md0) ∧
    LatencyReadSpec cfg0.s_grain cfg0.s_nr "s" md0.latency_stats_s
        (dm_attr_io_latency_s_show cfg0 md0) :=
  c1_latency_read_buckets cfg0 md0 (by decide) (by decide) (by decide)

/-- C2: for every payload and length, writing `io_latency_reset` on a
resolved object zeroes every bucket of all three histograms and succeeds
consuming the full payload length, regardless of payload content. -/
theorem c2_reset_consumes_all (cfg : LatencyConfig) (md : mapped_device)
    (page : String) (len : Nat) :
    dm_attr_store (dm_attr_io_latency_reset cfg) (some md) page len =
      (.ok (resetMd cfg md, len), [.get, .invoke, .put]) ∧
    (∀ i, i < cfg.us_nr → (resetMd cfg md).latency_stats_us i = 0) ∧
    (∀ i, i < cfg.ms_nr → (resetMd cfg md).latency_stats_ms i = 0) ∧
    (∀ i, i < cfg.s_nr → (resetMd cfg md).latency_stats_s i = 0) := by
  refine ⟨rfl, ?_, ?_, ?_⟩ <;> intro i h <;> simp [resetMd, h]

/-- Witness for C2 at an arbitrary payload. -/
theorem c2_reset_consumes_all_witness :
    dm_attr_store (dm_attr_io_latency_reset cfg0) (some md0) "anything" 8 =
      (.ok (resetMd cfg0 md0, 8), [.get, .invoke, .put]) ∧
    (resetMd cfg0 md0).latency_stats_us 0 = 0 :=
  ⟨(c2_reset_consumes_all cfg0 md0 "anything" 8).1,
   (c2_reset_consumes_all cfg0 md0 "anything" 8).2.1 0 (by decide)⟩

/-- C3: a read on a descriptor without a show callback fails with `-EIO`
(Unsupported), a write on a descriptor without a store callback fails with
`-EIO`, for every handle and payload; `io_latency_reset` has no show and
`name` has no store. -/
theorem c3_missing_callback (cfg : LatencyConfig) (attr : dm_sysfs_attr)
    (resolve : Option mapped_device) (page : String) (len : Nat) :
    (attr.show? = none → dm_attr_show attr resolve = (.error .EIOErr, [])) ∧
    (attr.store? = none → dm_attr_store attr resolve page len = (.error .EIOErr, [])) ∧
    (dm_attr_io_latency_reset cfg).show? = none ∧
    dm_attr_name.store? = none := by
  refine ⟨fun h => ?_, fun h => ?_, rfl, rfl⟩
  · unfold dm_attr_show
    rw [h]
  · unfold dm_attr_store
    rw [h]

/-- Witness for C3 on the write-only and read-only built-in attributes. -/
theorem c3_missing_callback_witness :
    dm_attr_show (dm_attr_io_latency_reset cfg0) (some md0) = (.error .EIOErr, []) ∧
    dm_attr_store dm_attr_name (some md0) "x" 1 = (.error .EIOErr, []) :=
  ⟨(c3_missing_callback cfg0 (dm_attr_io_latency_reset cfg0) (some md0) "x" 1).1 rfl,
   (c3_missing_callback cfg0 dm_attr_name (some md0) "x" 1).2.1 rfl⟩

/-- C4: when the descriptor has the requested callback but handle resolution
fails, both dispatchers return `-EINVAL`, invoke no callback and release no
reference. -/
theorem c4_invalid_handle (attr : dm_sysfs_attr) (page : String) (len : Nat) :
    (attr.show?.isSome → dm_attr_show attr none = (.error .EINVAL, [])) ∧
    (attr.store?.isSome → dm_attr_store attr none page len = (.error .EINVAL, [])) ∧
    RegEvent.invoke ∉ (dm_attr_show attr none).2 ∧
    RegEvent.put ∉ (dm_attr_show attr none).2 ∧
    RegEvent.invoke ∉ (dm_attr_store attr none page len).2 ∧
    RegEvent.put ∉ (dm_attr_store attr none page len).2 := by
  cases h1 : attr.show? <;> cases h2 : attr.store? <;>
    simp [dm_attr_show, dm_attr_store, h1, h2]

/-- Witness for C4 on `name` (readable) and `io_latency_reset` (writable). -/
theorem c4_invalid_handle_witness :
    dm_attr_show dm_attr_name none = (.error .EINVAL, []) ∧
    dm_attr_store (dm_attr_io_latency_reset cfg0) none "x" 1 = (.error .EINVAL, []) :=
  ⟨(c4_invalid_handle dm_attr_name "x" 1).1 rfl,
   (c4_invalid_handle (dm_attr_io_latency_reset cfg0) "x" 1).2.1 rfl⟩

/-- C5: in every dispatch of read or write, the registry trace is either
empty or exactly one acquire, one callback invocation and one release, in
that order; a nonempty trace implies the resolution succeeded and the
descriptor had the requested callback, so a reference is never released
without a preceding successful resolution in the same call, and the
release happens also when the callback reports failure (the trace does not
depend on the callback result). -/
theorem c5_ref_pairing (attr : dm_sysfs_attr) (resolve : Option mapped_device)
    (page : String) (len : Nat) :
    pairedTrace (dm_attr_show attr resolve).2 ∧
    pairedTrace (dm_attr_store attr resolve page len).2 ∧
    ((dm_attr_show attr resolve).2 ≠ [] →
      attr.show?.isSome ∧ resolve.isSome) ∧
    ((dm_attr_store attr resolve page len).2 ≠ [] →
      attr.store?.isSome ∧ resolve.isSome) := by
  unfold pairedTrace dm_attr_show dm_attr_store
  cases h1 : attr.show? <;> cases h2 : attr.store? <;> cases resolve <;> simp

/-- Witness for C5 on the `suspended` attribute with a live object. -/
theorem c5_ref_pairing_witness :
    pairedTrace (dm_attr_show dm_attr_suspended (some md0)).2 ∧
    (dm_attr_suspended.show?.isSome ∧ (some md0).isSome) :=
  ⟨(c5_ref_pairing dm_attr_suspended (some md0) "x" 0).1,
   (c5_ref_pairing dm_attr_suspended (some md0) "x" 0).2.2.1 (by decide)⟩

/-- C6: the reset store is idempotent (a second reset leaves the state of
the first reset unchanged), the state after reset has every bucket of every
scale at zero, and a latency read performed immediately after a reset
reports count 0 in every line of every scale. -/
theorem c6_reset_idempotent (cfg : LatencyConfig) (md : mapped_device)
    (p1 p2 : String) (l1 l2 : Nat) :
    dm_attr_io_latency_reset_store cfg md p1 l1 = .ok (resetMd cfg md, l1) ∧
    dm_attr_io_latency_reset_store cfg (resetMd cfg md) p2 l2 =
      .ok (resetMd cfg md, l2) ∧
    (∀ i, i < cfg.us_nr → (resetMd cfg md).latency_stats_us i = 0) ∧
    (∀ i, i < cfg.ms_nr → (resetMd cfg md).latency_stats_ms i = 0) ∧
    (∀ i, i < cfg.s_nr → (resetMd cfg md).latency_stats_s i = 0) ∧
    dm_attr_io_latency_us_show cfg (resetMd cfg md) =
      .ok (joinLines ((List.range cfg.us_nr).map fun i =>
        latencyLine (bucketLo cfg.us_grain i) cfg.us_grain "us" 0)) ∧
    dm_attr_io_latency_ms_show cfg (resetMd cfg md) =
      .ok (joinLines ((List.range cfg.ms_nr).map fun i =>
        latencyLine (bucketLo cfg.ms_grain i) cfg.ms_grain "ms" 0)) ∧
    dm_attr_io_latency_s_show cfg (resetMd cfg md) =
      .ok (joinLines ((List.range cfg.s_nr).map fun i =>
        latencyLine (bucketLo cfg.s_grain i) cfg.s_grain "s" 0)) := by
  refine ⟨rfl, ?_, ?_, ?_, ?_, ?_, ?_, ?_⟩
  · unfold dm_attr_io_latency_reset_store
    rw [resetMd_idem]
  · intro i h; simp [resetMd, h]
  · intro i h; simp [resetMd, h]
  · intro i h; simp [resetMd, h]
  · simp only [dm_attr_io_latency_us_show, resetMd]
    rw [latencyShow_reset]
  · simp only [dm_attr_io_latency_ms_show, resetMd]
    rw [latencyShow_reset]
  · simp only [dm_attr_io_latency_s_show, resetMd]
    rw [latencyShow_reset]

/-- Witness for C6 at the concrete configuration and device. -/
theorem c6_reset_idempotent_witness :
    dm_attr_io_latency_reset_store cfg0 (resetMd cfg0 md0) "b" 2 =
      .ok (resetMd cfg0 md0, 2) ∧
    (resetMd cfg0 md0).latency_stats_us 0 = 0 :=
  ⟨(c6_reset_idempotent cfg0 md0 "a" "b" 1 2).2.1,
   (c6_reset_idempotent cfg0 md0 "a" "b" 1 2).2.2.1 0 (by decide)⟩

/-- C7 as stated is false: incrementing a bucket by `k = 2 ^ 31` makes the
read render the count as the negative number `-2147483648`, not as `k`;
shown here at `cfg0` with bucket 0 of the microsecond scale. -/
theorem c7_roundtrip_counterexample :
    dm_attr_io_latency_us_show cfg0 mdBig =
      .ok "0-99(us):-2147483648\n100-199(us):0\n200-299(us):0\n300-399(us):0\n400-499(us):0\n" ∧
    toSigned32 (mdBig.latency_stats_us 0) ≠ ((2 : Int) ^ 31) ∧
    ("0-99(us):-2147483648\n" : String) ≠ "0-99(us):2147483648\n" := by
  refine ⟨rfl, by decide, by decide⟩

/-- C7 amended: starting from an all-zero histogram, incrementing bucket `i`
of a scale by `k < 2 ^ 31` and then reading that scale shows count `k` in
the line for bucket `i` and count 0 in every other line. -/
theorem c7_roundtrip_amended (cfg : LatencyConfig) (md : mapped_device)
    (i k : Nat) (hk : k < 2 ^ 31) :
    (md.latency_stats_us = incBucket (fun _ => 0) i k →
      dm_attr_io_latency_us_show cfg md =
        .ok (joinLines ((List.range cfg.us_nr).map fun j =>
          latencyLine (bucketLo cfg.us_grain j) cfg.us_grain "us"
            (if j = i then (k : Int) else 0)))) ∧
    (md.latency_stats_ms = incBucket (fun _ => 0) i k →
      dm_attr_io_latency_ms_show cfg md =
        .ok (joinLines ((List.range cfg.ms_nr).map fun j =>
          latencyLine (bucketLo cfg.ms_grain j) cfg.ms_grain "ms"
            (if j = i then (k : Int) else 0)))) ∧
    (md.latency_stats_s = incBucket (fun _ => 0) i k →
      dm_attr_io_latency_s_show cfg md =
        .ok (joinLines ((List.range cfg.s_nr).map fun j =>
          latencyLine (bucketLo cfg.s_grain j) cfg.s_grain "s"
            (if j = i then (k : Int) else 0)))) := by
  refine ⟨fun h => ?_, fun h => ?_, fun h => ?_⟩
  · simp only [dm_attr_io_latency_us_show]
    rw [h, latencyShow_incBucket cfg.us_grain cfg.us_nr "us" i k hk]
  · simp only [dm_attr_io_latency_ms_show]
    rw [h, latencyShow_incBucket cfg.ms_grain cfg.ms_nr "ms" i k hk]
  · simp only [dm_attr_io_latency_s_show]
    rw [h, latencyShow_incBucket cfg.s_grain cfg.s_nr "s" i k hk]

/-- Witness for the amended C7: bucket 1 incremented by 7 at `cfg0`. -/
theorem c7_roundtrip_amended_witness :
    dm_attr_io_latency_us_show cfg0 mdInc =
      .ok (joinLines ((List.range cfg0.us_nr).map fun j =>
        latencyLine (bucketLo cfg0.us_grain j) cfg0.us_grain "us"
          (if j = 1 then ((7 : Nat) : Int) else 0))) :=
  (c7_roundtrip_amended cfg0 mdInc 1 7 (by decide)).1 rfl

/-- C8: at the configuration `GRAINSIZE_us = 100`, `N_us = 5`, reading
`io_latency_us` on a never-incremented object returns exactly the expected
five lines. -/
theorem c8_concrete_us_read :
    dm_attr_show (dm_attr_io_latency_us cfg0) (some md0) =
      (.ok "0-99(us):0\n100-199(us):0\n200-299(us):0\n300-399(us):0\n400-499(us):0\n",
        [.get, .invoke, .put]) := rfl

/-- C9: reading the `suspended` attribute on a resolved object always
succeeds and returns exactly `"0\n"` or `"1\n"`, reflecting the suspend
state of the object. -/
theorem c9_suspended_read (md : mapped_device) :
    dm_attr_show dm_attr_suspended (some md) =
      (.ok (if md.suspended then "1\n" else "0\n"), [.get, .invoke, .put]) ∧
    ((if md.suspended then "1\n" else "0\n") = ("0\n" : String) ∨
      (if md.suspended then "1\n" else "0\n") = ("1\n" : String)) := by
  rcases md with ⟨nu, susp, f1, f2, f3⟩
  cases susp
  · exact ⟨rfl, Or.inl rfl⟩
  · exact ⟨rfl, Or.inr rfl⟩

/-- C10: every latency read renders each count with C `%d` semantics: the
printed count is the signed 32-bit (twos-complement, modulo `2 ^ 32`)
interpretation of the counter, and a counter whose residue is at least
`2 ^ 31` is rendered as a negative number. -/
theorem c10_signed_count_format (cfg : LatencyConfig) (md : mapped_device)
    (i v : Nat) :
    dm_attr_io_latency_us_show cfg md =
      .ok (joinLines (latencyLines cfg.us_grain cfg.us_nr "us" md.latency_stats_us)) ∧
    dm_attr_io_latency_ms_show cfg md =
      .ok (joinLines (latencyLines cfg.ms_grain cfg.ms_nr "ms" md.latency_stats_ms)) ∧
    dm_attr_io_latency_s_show cfg md =
      .ok (joinLines (latencyLines cfg.s_grain cfg.s_nr "s" md.latency_stats_s)) ∧
    (i < cfg.us_nr →
      (latencyLines cfg.us_grain cfg.us_nr "us" md.latency_stats_us)[i]? =
        some (latencyLine (bucketLo cfg.us_grain i) cfg.us_grain "us"
          (toSigned32 (md.latency_stats_us i)))) ∧
    (2 ^ 31 ≤ v % 2 ^ 32 → toSigned32 v < 0) ∧
    -(2 ^ 31) ≤ toSigned32 v ∧ toSigned32 v < 2 ^ 31 ∧
      toSigned32 v % (2 ^ 32 : Int) = (v : Int) % (2 ^ 32 : Int) := by
  refine ⟨congrArg Except.ok (latencyShow_eq cfg.us_grain cfg.us_nr "us" md.latency_stats_us),
    congrArg Except.ok (latencyShow_eq cfg.ms_grain cfg.ms_nr "ms" md.latency_stats_ms),
    congrArg Except.ok (latencyShow_eq cfg.s_grain cfg.s_nr "s" md.latency_stats_s),
    fun h => latencyLines_get? cfg.us_grain cfg.us_nr "us" md.latency_stats_us i h,
    (toSigned32_props v).1, (toSigned32_props v).2.1, (toSigned32_props v).2.2.1,
    (toSigned32_props v).2.2.2⟩

/-- Witness for C10 at a counter holding `2 ^ 31`. -/
theorem c10_signed_count_format_witness :
    (latencyLines cfg0.us_grain cfg0.us_nr "us" mdBig.latency_stats_us)[0]? =
      some (latencyLine (bucketLo cfg0.us_grain 0) cfg0.us_grain "us"
        (toSigned32 (mdBig.latency_stats_us 0))) ∧
    toSigned32 (2 ^ 31) < 0 :=
  ⟨(c10_signed_count_format cfg0 mdBig 0 (2 ^ 31)).2.2.2.1 (by decide),
   (c10_signed_count_format cfg0 mdBig 0 (2 ^ 31)).2.2.2.2.1 (by decide)⟩

end DmSysfs
